import Mathlib

/-!
Verification development for the document scanning and risk-classification
engine of `legacy-data-manager` (backend/app/services/file_scanner_with_json.py).

Modelling conventions:
* Python `datetime` values are modelled at day granularity as integers
  (days on an absolute axis); `datetime.now()` is the explicit parameter `now`.
  `timedelta.days` of a difference of whole-day datetimes is exactly their
  integer difference, and every comparison in the source only inspects `.days`.
* Python `float` weights are modelled as rationals (`ℚ`); all weights in the
  configuration are multiples of 0.05, and none of the comparisons performed
  by the source lie on a float-rounding boundary that distinguishes double
  arithmetic from exact arithmetic on the reachable values.
* Python `dict`s with statically known string keys are modelled as association
  lists, read through `lookupD` (mirrors `d.get(k, default)` / `d[k]`).
* Text is ASCII in all modelled data; `str.lower()` is ASCII lowercasing.
-/

namespace FileScanner

/-- ASCII lowercasing of one character (Python `str.lower` on ASCII input). -/
def asciiLower (c : Char) : Char :=
  if 65 ≤ c.toNat ∧ c.toNat ≤ 90 then Char.ofNat (c.toNat + 32) else c

/-- ASCII lowercasing of a string. -/
def lowerStr (s : String) : String := String.mk (s.data.map asciiLower)

/-- Python regex word character on ASCII text: `[A-Za-z0-9_]` (`\w`). -/
def isWordChar (c : Char) : Bool :=
  (48 ≤ c.toNat ∧ c.toNat ≤ 57) ∨ (65 ≤ c.toNat ∧ c.toNat ≤ 90) ∨
  (97 ≤ c.toNat ∧ c.toNat ≤ 122) ∨ c.toNat = 95

/-- Python regex `\d` on ASCII text: `[0-9]`. -/
def isDigitChar (c : Char) : Bool := 48 ≤ c.toNat ∧ c.toNat ≤ 57

/-- Python regex `\s` on ASCII text: space, tab, newline, CR, VT, FF. -/
def isSpaceChar (c : Char) : Bool :=
  c.toNat = 32 ∨ c.toNat = 9 ∨ c.toNat = 10 ∨ c.toNat = 13 ∨
  c.toNat = 11 ∨ c.toNat = 12

/-- Read an association-list model of a Python dict: `m.get(k, d)`. -/
def lookupD (m : List (String × ℚ)) (k : String) (d : ℚ) : ℚ :=
  (m.lookup k).getD d

/-- Source `CONTENT_RISK_WEIGHTS` (source lines 26-31). -/
def CONTENT_RISK_WEIGHTS : List (String × ℚ) :=
  [("confidential", 0.4), ("pii", 0.3), ("financial", 0.2), ("legal", 0.1)]

/-- Source `AGE_RISK_FACTORS` (source lines 35-39). -/
def AGE_RISK_FACTORS : List (String × ℚ) :=
  [("high", 0.3), ("medium", 0.2), ("low", 0.1)]

/-- Source `ACCESS_RISK_FACTORS` (source lines 43-47). -/
def ACCESS_RISK_FACTORS : List (String × ℚ) :=
  [("high", 0.3), ("medium", 0.2), ("low", 0.1)]

/-- Source `get_age_risk_factor` (source lines 53-79).  `none` models a missing
creation date (Python `None`, the only falsy `datetime` value).  The
`except` branch of the source is unreachable for datetime inputs
(subtraction and comparison of datetimes do not raise). -/
def get_age_risk_factor (now : Int) (file_created_date : Option Int) : ℚ :=
  match file_created_date with
  | none => lookupD AGE_RISK_FACTORS "medium" 0
  | some d =>
    let age_years : ℚ := ((now - d : Int) : ℚ) / 365
    if age_years ≥ 3 then lookupD AGE_RISK_FACTORS "high" 0
    else if age_years ≥ 1 then lookupD AGE_RISK_FACTORS "medium" 0
    else lookupD AGE_RISK_FACTORS "low" 0

/-- Source `get_access_risk_factor` (source lines 81-107). -/
def get_access_risk_factor (now : Int) (last_accessed_date : Option Int) : ℚ :=
  match last_accessed_date with
  | none => lookupD ACCESS_RISK_FACTORS "high" 0
  | some d =>
    let years_since_access : ℚ := ((now - d : Int) : ℚ) / 365
    if years_since_access ≥ 3 then lookupD ACCESS_RISK_FACTORS "high" 0
    else if years_since_access ≥ 1 then lookupD ACCESS_RISK_FACTORS "medium" 0
    else lookupD ACCESS_RISK_FACTORS "low" 0

/-- The `file_data` dict handed to `calculate_weighted_risk_score`
(source lines 638-642): optional creation and last-access datetimes. -/
structure RiskFileData where
  createdTime : Option Int
  lastAccessedTime : Option Int
  name : String := ""

/-- Source `calculate_weighted_risk_score` (source lines 109-151).  `findings` models
the findings dict as an association list (category key, evidence list); only
the keys are read, with `CONTENT_RISK_WEIGHTS.get(category, 0.05)`. -/
def calculate_weighted_risk_score (now : Int) (file_data : RiskFileData)
    (findings : List (String × List String)) : ℚ :=
  let base_score : ℚ :=
    findings.foldl (fun acc p => acc + lookupD CONTENT_RISK_WEIGHTS p.1 0.05) 0
  let age_factor := get_age_risk_factor now file_data.createdTime
  let access_factor := get_access_risk_factor now file_data.lastAccessedTime
  min (base_score + age_factor + access_factor) 1

/-- Source `get_risk_level_label` (source lines 153-168). -/
def get_risk_level_label (risk_score : ℚ) : String :=
  if risk_score ≥ 0.7 then "high"
  else if risk_score ≥ 0.4 then "medium"
  else "low"

/-- Source `classify_by_age` (source lines 339-346); `now` is the module-level
timestamp of the scan, `modified_time` the file's last-modified datetime. -/
def classify_by_age (now modified_time : Int) : String :=
  let age_days := now - modified_time
  if age_days ≤ 365 then "lessThanOneYear"
  else if age_days ≤ 1095 then "oneToThreeYears"
  else "moreThanThreeYears"

/-- Department of one lowercased owner email (body of the loop in
`get_department_from_owner`, source lines 370-377). -/
def deptOfEmail (e : String) : Option String :=
  if e = "yousuf@getclario.ai" then some "Sales & Marketing"
  else if e = "vanessa@getclario.ai" then some "Operations"
  else if e = "madhu@getclario.ai" then some "R&D"
  else none

/-- Source `get_department_from_owner` (source lines 348-378).  Owners are modelled
as their email strings (the source accepts either dicts carrying an
`emailAddress` or plain strings and lowercases them). -/
def get_department_from_owner (owners : List String) : String :=
  let owner_emails := owners.map lowerStr
  match owner_emails.findSome? deptOfEmail with
  | some d => d
  | none => "Others"

/-! ## Content classifier: keyword tables and whole-word search

`scan_text` (source lines 403-425) lowercases the text, searches every
keyword of every category with `re.search(r'\b' + re.escape(kw) + r'\b', ...)`
(whole-word, literal), then searches every regex pattern against the original
text, and keeps only the categories with a non-empty evidence list. -/

/-- Keys of the `sensitive_keywords` dict in insertion order
(source lines 263-286). -/
def category_order : List String := ["pii", "financial", "legal", "confidential"]

/-- Source `sensitive_keywords` (source lines 263-286), as a map from category to
its keyword list. Categories outside the dict have no keywords. -/
def sensitive_keywords (cat : String) : List String :=
  if cat = "pii" then
    ["dob", "email", "phone", "address", "ssn", "personal", "pii",
     "hipaa", "gdpr", "personally identifiable", "customer data",
     "personnel", "employee", "patient", "healthcare"]
  else if cat = "financial" then
    ["credit", "bank", "amount", "revenue", "budget", "roi", "cost",
     "financial", "invoice", "payment", "expense", "profit", "pricing",
     "salary", "investment", "tax"]
  else if cat = "legal" then
    ["license", "contract", "agreement", "legal", "compliance",
     "regulatory", "counsel", "policy", "policies", "terms",
     "regulation", "gdpr", "ccpa", "hipaa", "certification",
     "audit", "liability"]
  else if cat = "confidential" then
    ["confidential", "internal use", "do not distribute", "sensitive",
     "security", "restricted", "proprietary", "classified", "private",
     "secret", "nda", "non-disclosure", "intellectual property",
     "trade secret", "internal only"]
  else []

/-- Source `pattern_categories` (source lines 321-335). -/
def pattern_categories : List (String × String) :=
  [("credit_card", "financial"),
   ("expiry_date", "financial"),
   ("ssn", "pii"),
   ("email", "pii"),
   ("phone", "pii"),
   ("drivers_license", "pii"),
   ("address_like", "pii"),
   ("contract_number", "legal"),
   ("legal_case", "legal"),
   ("regulation_ref", "legal"),
   ("confidential_header", "confidential"),
   ("classification_level", "confidential"),
   ("nda_reference", "confidential")]

/-- Whether `some c` is a regex word character (used for `\b` boundaries);
`none` (start or end of the text) is not. -/
def isWordOpt : Option Char → Bool
  | none => false
  | some c => isWordChar c

/-- Does `kw` occur literally at the head of `s`? -/
def listStartsWith : List Char → List Char → Bool
  | [], _ => true
  | _ :: _, [] => false
  | k :: ks, c :: cs => k = c && listStartsWith ks cs

/-- Whole-word occurrence of `kw` at the current position of `s`, with
`prev` the character immediately before this position.  Both `\b`
boundaries require the neighbouring character (if any) to be a non-word
character; this is the semantics of `\b<literal>\b` for literals that
start and end with word characters, which every configured keyword does. -/
def wwHere (kw : List Char) (prev : Option Char) (s : List Char) : Bool :=
  listStartsWith kw s && !(isWordOpt prev) && !(isWordOpt (s.drop kw.length).head?)

/-- Scan all positions of `s` for a whole-word occurrence of `kw`. -/
def wholeWordAux (kw : List Char) : Option Char → List Char → Bool
  | prev, [] => wwHere kw prev []
  | prev, c :: cs => wwHere kw prev (c :: cs) || wholeWordAux kw (some c) cs

/-- Python `re.search(r'\b' + re.escape(kw) + r'\b', s) is not None`. -/
def wholeWordSearch (kw s : String) : Bool :=
  wholeWordAux kw.toList none s.toList

/-! ## A small regular-expression engine (Brzozowski derivatives)

The `patterns` dict (source lines 288-319) is transcribed into this AST;
`re.search` is "some substring of the text is in the pattern's language",
with the lookbehind/lookahead of the `phone` pattern and the trailing `\b`
of the `address_like` pattern expressed as predicates on the characters
adjacent to the matched substring. -/

inductive Rx where
  | eps : Rx
  | fail : Rx
  | cls : (Char → Bool) → Rx
  | cat : Rx → Rx → Rx
  | alt : Rx → Rx → Rx
  | star : Rx → Rx

/-- Does the regex accept the empty string? -/
def Rx.nullable : Rx → Bool
  | .eps => true
  | .fail => false
  | .cls _ => false
  | .cat a b => a.nullable && b.nullable
  | .alt a b => a.nullable || b.nullable
  | .star _ => true

/-- Concatenation with eager failure/epsilon simplification. -/
def Rx.catS : Rx → Rx → Rx
  | .fail, _ => .fail
  | _, .fail => .fail
  | .eps, b => b
  | a, .eps => a
  | a, b => .cat a b

/-- Alternation with eager failure simplification. -/
def Rx.altS : Rx → Rx → Rx
  | .fail, b => b
  | a, .fail => a
  | a, b => .alt a b

/-- Brzozowski derivative with respect to one character. -/
def Rx.deriv : Rx → Char → Rx
  | .eps, _ => .fail
  | .fail, _ => .fail
  | .cls p, c => if p c then .eps else .fail
  | .cat a b, c =>
    if a.nullable then Rx.altS (Rx.catS (a.deriv c) b) (b.deriv c)
    else Rx.catS (a.deriv c) b
  | .alt a b, c => Rx.altS (a.deriv c) (b.deriv c)
  | .star a, c => Rx.catS (a.deriv c) (.star a)

/-- Is some split `s = m ++ rest` such that `r` accepts `m` and the first
character of `rest` (or the end of text) satisfies `ahead`? -/
def matchEndsOk (ahead : Option Char → Bool) : Rx → List Char → Bool
  | r, [] => r.nullable && ahead none
  | r, c :: cs => (r.nullable && ahead (some c)) || matchEndsOk ahead (r.deriv c) cs

/-- Scan all start positions (`prev` = preceding character) for a match of
`core` whose left context satisfies `behind` and right context `ahead`. -/
def searchCtxAux (behind ahead : Option Char → Bool) (core : Rx) :
    Option Char → List Char → Bool
  | prev, [] => behind prev && matchEndsOk ahead core []
  | prev, c :: cs =>
    (behind prev && matchEndsOk ahead core (c :: cs)) ||
      searchCtxAux behind ahead core (some c) cs

/-- Python `re.search` of a pattern with (optional) one-character lookbehind and
lookahead context conditions. -/
def searchCtx (behind ahead : Option Char → Bool) (core : Rx) (s : String) : Bool :=
  searchCtxAux behind ahead core none s.toList

/-- Single literal character. -/
def chr (c : Char) : Rx := .cls (fun x => x = c)

/-- Literal string. -/
def lit (s : String) : Rx := s.toList.foldr (fun c r => .cat (chr c) r) .eps

/-- Character class given by an explicit set of characters. -/
def anyOf (s : String) : Rx := .cls (fun c => s.toList.contains c)

/-- Character range class such as `[2-9]`. -/
def cRange (lo hi : Char) : Rx :=
  .cls (fun c => lo.toNat ≤ c.toNat ∧ c.toNat ≤ hi.toNat)

/-- Sequence of regexes. -/
def seq (l : List Rx) : Rx := l.foldr .cat .eps

/-- Alternation of a list of regexes. -/
def oneOf (l : List Rx) : Rx := l.foldr .alt .fail

/-- Regex `r?`. -/
def rxOpt (r : Rx) : Rx := .alt r .eps

/-- Regex `r+`. -/
def plus (r : Rx) : Rx := .cat r (.star r)

/-- Regex `r{n}`. -/
def repN (r : Rx) : Nat → Rx
  | 0 => .eps
  | n + 1 => .cat r (repN r n)

/-- Regex `(r?){k}` — at most `k` copies of `r`. -/
def optUpTo (r : Rx) : Nat → Rx
  | 0 => .eps
  | n + 1 => .cat (rxOpt r) (optUpTo r n)

/-- Regex `r{m,n}` as `r{m}` followed by at most `n - m` optional copies. -/
def repRange (r : Rx) (m n : Nat) : Rx := .cat (repN r m) (optUpTo r (n - m))

/-- Regex `\d`. -/
def rxDigit : Rx := .cls isDigitChar

/-- Regex `\s`. -/
def rxSpace : Rx := .cls isSpaceChar

/-- Regex `[A-Z]`. -/
def rxUpper : Rx := cRange (Char.ofNat 65) (Char.ofNat 90)

/-- One pattern of the `patterns` dict: label, core regex, and the
character-context conditions of its lookaround assertions (trivially true
for patterns without lookaround). -/
structure PatternDef where
  label : String
  core : Rx
  behind : Option Char → Bool := fun _ => true
  ahead : Option Char → Bool := fun _ => true

/-- ASCII letter. -/
def isAlphaChar (c : Char) : Bool :=
  (65 ≤ c.toNat ∧ c.toNat ≤ 90) ∨ (97 ≤ c.toNat ∧ c.toNat ≤ 122)

/-- ASCII letter or digit. -/
def isAlphaNumChar (c : Char) : Bool := isAlphaChar c ∨ isDigitChar c

/-- The apostrophe character. -/
def apos : Char := Char.ofNat 39

/-- Source `credit_card` pattern (source line 290):
`(?:4[0-9]{12}(?:[0-9]{3})?)|(?:5[1-5][0-9]{14})|(?:3[47][0-9]{13})|(?:6(?:011|5[0-9]{2})[0-9]{12})`. -/
def creditCardRx : Rx :=
  oneOf
    [seq [chr '4', repN rxDigit 12, rxOpt (repN rxDigit 3)],
     seq [chr '5', anyOf "12345", repN rxDigit 14],
     seq [chr '3', anyOf "47", repN rxDigit 13],
     seq [chr '6', oneOf [lit "011", seq [chr '5', repN rxDigit 2]], repN rxDigit 12]]

/-- Source `expiry_date` pattern (source line 293):
`(?:0[1-9]|1[0-2])\/(?:2[3-9]|[3-9][0-9])`. -/
def expiryDateRx : Rx :=
  seq [oneOf [seq [chr '0', cRange '1' '9'], seq [chr '1', anyOf "012"]],
       chr '/',
       oneOf [seq [chr '2', cRange '3' '9'], seq [cRange '3' '9', cRange '0' '9']]]

/-- Source `ssn` pattern (source line 296):
`(?:SSN|Social Security)(?:[^0-9-])*\d{3}-\d{2}-\d{4}`. -/
def ssnRx : Rx :=
  seq [oneOf [lit "SSN", lit "Social Security"],
       .star (.cls (fun c => ¬(isDigitChar c ∨ c = '-'))),
       repN rxDigit 3, chr '-', repN rxDigit 2, chr '-', repN rxDigit 4]

/-- Source `email` pattern (source line 299):
`[a-zA-Z0-9._%+-]+@(?:[a-zA-Z0-9-]+\.)+[a-zA-Z]{2,}`. -/
def emailRx : Rx :=
  seq [plus (.cls (fun c => isAlphaNumChar c ∨ ['.', '_', '%', '+', '-'].contains c)),
       chr '@',
       plus (seq [plus (.cls (fun c => isAlphaNumChar c ∨ c = '-')), chr '.']),
       repN (.cls isAlphaChar) 2, .star (.cls isAlphaChar)]

/-- Lookbehind of the `phone` pattern: `(?<![\w/.:-])`. -/
def phoneBehind : Option Char → Bool
  | none => true
  | some c => ¬(isWordChar c ∨ ['/', '.', ':', '-'].contains c)

/-- Lookahead of the `phone` pattern: `(?![-\d./@])`. -/
def phoneAhead : Option Char → Bool
  | none => true
  | some c => ¬(c = '-' ∨ isDigitChar c ∨ ['.', '/', '@'].contains c)

/-- Core of the `phone` pattern (source line 302):
`(?:(?:Phone|Tel|Mobile|Contact|Call|Fax)(?:[^0-9(])+)?(?:\+?1[-. ])?\(?[2-9][0-9]{2}\)?[-. ]?[2-9][0-9]{2}[-. ]?[0-9]{4}(?:\s*(?:ext|x)\.?\s*\d{1,5})?`. -/
def phoneRx : Rx :=
  seq [rxOpt (seq [oneOf [lit "Phone", lit "Tel", lit "Mobile",
                          lit "Contact", lit "Call", lit "Fax"],
                   plus (.cls (fun c => ¬(isDigitChar c ∨ c = '(')))]),
       rxOpt (seq [rxOpt (chr '+'), chr '1', anyOf "-. "]),
       rxOpt (chr '('), cRange '2' '9', repN rxDigit 2, rxOpt (chr ')'),
       rxOpt (anyOf "-. "), cRange '2' '9', repN rxDigit 2,
       rxOpt (anyOf "-. "), repN rxDigit 4,
       rxOpt (seq [.star rxSpace, oneOf [lit "ext", lit "x"], rxOpt (chr '.'),
                   .star rxSpace, repRange rxDigit 1 5])]

/-- Source `drivers_license` pattern (source line 305):
`(?:Driver'?s? License|DL|License Number|License #)(?:[^0-9])*(?:[A-Z][0-9]{7}|[A-Z][0-9]{8}|[A-Z][0-9]{12}|\d{7,9}|[A-Z]\d{2}[-\s]?\d{3}[-\s]?\d{3}|[A-Z]\d{3}[-\s]?\d{3}[-\s]?\d{3}|[A-Z]{1,2}\d{4,7})`. -/
def driversLicenseRx : Rx :=
  seq [oneOf [seq [lit "Driver", rxOpt (chr apos), rxOpt (chr 's'), lit " License"],
              lit "DL", lit "License Number", lit "License #"],
       .star (.cls (fun c => ¬ isDigitChar c)),
       oneOf [seq [rxUpper, repN rxDigit 7],
              seq [rxUpper, repN rxDigit 8],
              seq [rxUpper, repN rxDigit 12],
              repRange rxDigit 7 9,
              seq [rxUpper, repN rxDigit 2, rxOpt (.cls (fun c => c = '-' ∨ isSpaceChar c)),
                   repN rxDigit 3, rxOpt (.cls (fun c => c = '-' ∨ isSpaceChar c)),
                   repN rxDigit 3],
              seq [rxUpper, repN rxDigit 3, rxOpt (.cls (fun c => c = '-' ∨ isSpaceChar c)),
                   repN rxDigit 3, rxOpt (.cls (fun c => c = '-' ∨ isSpaceChar c)),
                   repN rxDigit 3],
              seq [repRange rxUpper 1 2, repRange rxDigit 4 7]]]

/-- Core of `address_like` (source line 308):
`(?:Address|Location|Street)(?:[^0-9])*\d{1,5}\s[\w\s.]+(?:Street|St|Avenue|Ave|Road|Rd|Boulevard|Blvd|Lane|Ln|Drive|Dr|Circle|Cir|Court|Ct|Way|Place|Pl|Square|Sq)`;
the trailing `\b` is the pattern's lookahead context. -/
def addressLikeRx : Rx :=
  seq [oneOf [lit "Address", lit "Location", lit "Street"],
       .star (.cls (fun c => ¬ isDigitChar c)),
       repRange rxDigit 1 5, rxSpace,
       plus (.cls (fun c => isWordChar c ∨ isSpaceChar c ∨ c = '.')),
       oneOf [lit "Street", lit "St", lit "Avenue", lit "Ave", lit "Road", lit "Rd",
              lit "Boulevard", lit "Blvd", lit "Lane", lit "Ln", lit "Drive", lit "Dr",
              lit "Circle", lit "Cir", lit "Court", lit "Ct", lit "Way",
              lit "Place", lit "Pl", lit "Square", lit "Sq"]]

/-- Source `contract_number` pattern (source lines 311 and 316, a duplicated dict
key with an identical value, so a single entry):
`(?:Contract|Agreement|License)\s*(?:#|Number|No\.?)\s*[A-Z0-9-]+`. -/
def contractNumberRx : Rx :=
  seq [oneOf [lit "Contract", lit "Agreement", lit "License"],
       .star rxSpace,
       oneOf [lit "#", lit "Number", seq [lit "No", rxOpt (chr '.')]],
       .star rxSpace,
       plus (.cls (fun c => (65 ≤ c.toNat ∧ c.toNat ≤ 90) ∨ isDigitChar c ∨ c = '-'))]

/-- Source `legal_case` pattern (source line 312):
`(?:Case|Docket)\s*(?:#|Number|No\.?)\s*[A-Z0-9-]+`. -/
def legalCaseRx : Rx :=
  seq [oneOf [lit "Case", lit "Docket"],
       .star rxSpace,
       oneOf [lit "#", lit "Number", seq [lit "No", rxOpt (chr '.')]],
       .star rxSpace,
       plus (.cls (fun c => (65 ≤ c.toNat ∧ c.toNat ≤ 90) ∨ isDigitChar c ∨ c = '-'))]

/-- Source `regulation_ref` pattern (source line 313):
`(?:CFR|U\.S\.C\.|Regulation)\s+\d+[A-Z]?(?:\.\d+)*`. -/
def regulationRefRx : Rx :=
  seq [oneOf [lit "CFR", lit "U.S.C.", lit "Regulation"],
       plus rxSpace, plus rxDigit, rxOpt rxUpper,
       .star (seq [chr '.', plus rxDigit])]

/-- Source `classification_level` pattern (source line 317):
`(?:TOP SECRET|SECRET|CONFIDENTIAL|RESTRICTED|INTERNAL)`. -/
def classificationLevelRx : Rx :=
  oneOf [lit "TOP SECRET", lit "SECRET", lit "CONFIDENTIAL",
         lit "RESTRICTED", lit "INTERNAL"]

/-- Source `nda_reference` pattern (source line 318):
`(?:NDA|Non-Disclosure|Non Disclosure)\s+(?:Agreement|Contract)`. -/
def ndaReferenceRx : Rx :=
  seq [oneOf [lit "NDA", lit "Non-Disclosure", lit "Non Disclosure"],
       plus rxSpace,
       oneOf [lit "Agreement", lit "Contract"]]

/-- The `patterns` dict (source lines 288-319) in insertion order; the
duplicated `contract_number` key collapses to its single dict entry. -/
def patterns : List PatternDef :=
  [{ label := "credit_card", core := creditCardRx },
   { label := "expiry_date", core := expiryDateRx },
   { label := "ssn", core := ssnRx },
   { label := "email", core := emailRx },
   { label := "phone", core := phoneRx, behind := phoneBehind, ahead := phoneAhead },
   { label := "drivers_license", core := driversLicenseRx },
   { label := "address_like", core := addressLikeRx,
     ahead := fun nc => !(isWordOpt nc) },
   { label := "contract_number", core := contractNumberRx },
   { label := "legal_case", core := legalCaseRx },
   { label := "regulation_ref", core := regulationRefRx },
   { label := "classification_level", core := classificationLevelRx },
   { label := "nda_reference", core := ndaReferenceRx }]

/-- The keyword hits of one category (the keyword loop of `scan_text`,
source lines 412-416): keywords whose lowercased literal occurs whole-word
in the lowercased text, in keyword-list order. -/
def keywordHits (text_lower : String) (cat : String) : List String :=
  (sensitive_keywords cat).filter (fun kw => wholeWordSearch (lowerStr kw) text_lower)

/-- The patterns that match the (original, non-lowercased) text (the
pattern loop of `scan_text`, source lines 419-422), in `patterns` order. -/
def patternHits (text : String) : List PatternDef :=
  patterns.filter (fun p => searchCtx p.behind p.ahead p.core text)

/-- The full evidence list `findings[cat]` built by `scan_text`: keyword
hits first (keyword loop runs first), then the labels of the matching
patterns filed under `pattern_categories.get(label, "pii")`. -/
def categoryHits (text : String) (cat : String) : List String :=
  keywordHits (lowerStr text) cat ++
    ((patternHits text).filter
        (fun p => (pattern_categories.lookup p.label).getD "pii" = cat)).map
      (fun p => p.label)

/-- Source `scan_text` (source lines 403-425): only the categories with non-empty
evidence are returned, in the findings dict's key order. -/
def scan_text (text : String) : List (String × List String) :=
  (category_order.map (fun cat => (cat, categoryHits text cat))).filter
    (fun p => ¬ p.2.isEmpty)

/-! ## Text extractor -/

/-- Source `extract_text_from_file` (source lines 427-449).  The byte stream and the
format-specific libraries (python-docx, python-pptx, openpyxl, pdfminer,
PIL + tesseract, `bytes.decode`) are abstracted by `stream`: for a handled
format tag it yields the text that format's handler produces from the
stream, or an exception (`Except.error`).  The bare `except: return ""`
swallows every handler failure; an unhandled tag falls through to the
final `return ""`. -/
def extract_text_from_file (stream : String → Except Unit String) (file_type : String) : String :=
  if file_type = "docx" ∨ file_type = "pptx" ∨ file_type = "xlsx" ∨ file_type = "xls" ∨
      file_type = "pdf" ∨ file_type = "jpg" ∨ file_type = "jpeg" ∨ file_type = "png" ∨
      file_type = "webp" ∨ file_type = "txt" then
    match stream file_type with
    | .ok text => text
    | .error _ => ""
  else ""

/-! ## Batch scan over Google Drive (`scan_files`, `source='gdrive'`) -/

/-- Source `file_type_map` (source lines 180-190), in dict insertion order. -/
def file_type_map : List (String × List String) :=
  [("documents", ["docx", "txt", "doc", "rtf", "odt", "pages", "md", "gdoc"]),
   ("spreadsheets", ["xlsx", "xls", "csv", "ods", "numbers", "gsheet"]),
   ("presentations", ["pptx", "ppt", "odp", "key", "gslides"]),
   ("pdfs", ["pdf"]),
   ("images", ["jpg", "jpeg", "png", "webp", "gif", "bmp", "tiff", "heic", "gdraw"]),
   ("videos", ["mp4", "mov", "avi", "wmv", "flv", "mkv", "webm"]),
   ("audio", ["mp3", "wav", "ogg", "m4a", "wma"]),
   ("archives", ["zip", "rar", "7z", "tar", "gz"]),
   ("code", ["py", "js", "java", "cpp", "h", "cs", "php", "rb", "swift", "gs"])]

/-- Source `mime_type_map` (source lines 192-261). -/
def mime_type_map : List (String × String) :=
  [("application/vnd.google-apps.document", "gdoc"),
   ("application/vnd.google-apps.spreadsheet", "gsheet"),
   ("application/vnd.google-apps.presentation", "gslides"),
   ("application/vnd.google-apps.drawing", "gdraw"),
   ("application/vnd.google-apps.form", "gform"),
   ("application/vnd.google-apps.script", "gs"),
   ("application/vnd.google-apps.folder", "folder"),
   ("application/pdf", "pdf"),
   ("application/msword", "doc"),
   ("application/vnd.openxmlformats-officedocument.wordprocessingml.document", "docx"),
   ("application/vnd.ms-excel", "xls"),
   ("application/vnd.openxmlformats-officedocument.spreadsheetml.sheet", "xlsx"),
   ("application/vnd.ms-powerpoint", "ppt"),
   ("application/vnd.openxmlformats-officedocument.presentationml.presentation", "pptx"),
   ("application/vnd.oasis.opendocument.text", "odt"),
   ("application/vnd.oasis.opendocument.spreadsheet", "ods"),
   ("application/vnd.oasis.opendocument.presentation", "odp"),
   ("application/x-iwork-pages-sffpages", "pages"),
   ("application/x-iwork-numbers-sffnumbers", "numbers"),
   ("application/x-iwork-keynote-sffkey", "key"),
   ("text/markdown", "md"),
   ("text/plain", "txt"),
   ("text/rtf", "rtf"),
   ("image/jpeg", "jpg"),
   ("image/png", "png"),
   ("image/gif", "gif"),
   ("image/webp", "webp"),
   ("image/bmp", "bmp"),
   ("image/tiff", "tiff"),
   ("image/heic", "heic"),
   ("video/mp4", "mp4"),
   ("video/quicktime", "mov"),
   ("video/x-msvideo", "avi"),
   ("video/x-ms-wmv", "wmv"),
   ("video/webm", "webm"),
   ("video/x-matroska", "mkv"),
   ("audio/mpeg", "mp3"),
   ("audio/wav", "wav"),
   ("audio/ogg", "ogg"),
   ("audio/mp4", "m4a"),
   ("audio/x-ms-wma", "wma"),
   ("application/zip", "zip"),
   ("application/x-rar-compressed", "rar"),
   ("application/x-7z-compressed", "7z"),
   ("application/x-tar", "tar"),
   ("application/gzip", "gz"),
   ("text/javascript", "js"),
   ("text/x-python", "py"),
   ("text/x-java", "java"),
   ("text/x-c", "c"),
   ("text/x-cpp", "cpp"),
   ("text/x-csharp", "cs"),
   ("text/x-php", "php"),
   ("text/x-ruby", "rb"),
   ("text/x-swift", "swift")]

/-- Python `name.split('.')[-1].lower()`: the (lowercased) suffix after the last
dot of the name. -/
def extFromName (name : String) : String :=
  String.mk (((name.toList.reverse.takeWhile (fun c => ¬(c = '.'))).reverse).map asciiLower)

/-- Extension resolution of the gdrive branch (source lines 537-542):
mime-type lookup, else the name's suffix when the name contains a dot,
else `'others'` (the `if not ext` check also turns an empty suffix into
`'others'`). -/
def extOf (mimeType name : String) : String :=
  let e :=
    match mime_type_map.lookup mimeType with
    | some e => e
    | none => if name.toList.contains '.' then extFromName name else ""
  if e = "" then "others" else e

/-- File-type category resolution (source lines 548-552): first
`file_type_map` entry whose extension list contains `ext`, else `'others'`. -/
def fileTypeOf (ext : String) : String :=
  match file_type_map.find? (fun p => p.2.contains ext) with
  | some p => p.1
  | none => "others"

deriving instance DecidableEq for Except

/-- One entry of the scan input: the Google Drive metadata of one file
together with the outcomes of the two effectful steps taken for it.
`metaOk = false` models an exception raised while reading or parsing the
metadata (missing key, unparsable `modifiedTime`, non-numeric `size`, …,
source lines 529-574) — these all occur before any mutation of `results`.
`content` is the outcome of `drive_service.get_file_content` (source line
591): fetched text, or an exception of the content collaborator. -/
structure DriveFile where
  id : String
  name : String
  mimeType : String
  modifiedTime : Int
  createdTime : Option Int := none
  size : Int := 0
  owners : List String := []
  metaOk : Bool := true
  content : Except Unit String := .ok ""
deriving DecidableEq

/-- The per-file dict placed in `results["files"]` (source lines 561-574),
plus the fields added later for sensitive files (lines 612-615, 652-653,
685).  Keys absent until those later assignments are `Option` fields
initialised to `none`. -/
structure FileRecord where
  id : String
  name : String
  mimeType : String
  modifiedTime : Int
  createdTime : Int
  size : Int
  fileType : String
  ageGroup : String
  sensitiveCategories : List String := []
  riskLevel : Option ℚ := none
  riskLevelLabel : Option String := none
  department : String
  sensitivityExplanation : Option String := none
  confidence : Option ℚ := none
  sensitivityReason : Option String := none
deriving DecidableEq

/-- The dict `results["stats"]` (source lines 455-472).  The count dicts are
modelled as total count functions (absent key = count 0). -/
structure Stats where
  total_documents : Nat := 0
  total_sensitive : Nat := 0
  total_duplicates : Nat := 0
  by_file_type : String → Nat := fun _ => 0
  by_sensitivity : String → Nat := fun _ => 0
  by_age_group : String → Nat := fun _ => 0
  by_risk_level : String → Nat := fun _ => 0
  by_department : String → Nat := fun _ => 0

/-- The whole `results` structure (source lines 453-477) together with the
loop-local `sensitive_file_ids` set (line 525, kept as a duplicate-free
list). -/
structure ScanState where
  files : List FileRecord := []
  stats : Stats := {}
  scan_complete : Bool := false
  processed_files : Nat := 0
  total_files : Nat := 0
  failed_files : List String := []
  sensitive_file_ids : List String := []

/-- Increment one key of a count map. -/
def bump (m : String → Nat) (k : String) : String → Nat :=
  fun x => if x = k then m k + 1 else m x

/-- Python `", ".join(items)`. -/
def joinComma : List String → String
  | [] => ""
  | [x] => x
  | x :: xs => x ++ ", " ++ joinComma xs

/-- Python `"; ".join(items)`. -/
def joinSemi : List String → String
  | [] => ""
  | [x] => x
  | x :: xs => x ++ "; " ++ joinSemi xs

/-- One explanation entry (source line 608). -/
def explanationFor (category : String) (found_items : List String) : String :=
  "Found " ++ joinComma found_items ++ " in " ++ category ++ " category"

/-- The sensitivity update of one scanned file (source lines 593-620):
locate the first record with this id, set its sensitivity fields, bump
`by_sensitivity` for each found category, and count the id once in
`total_sensitive` / `sensitive_file_ids`. -/
def applyFindings (st : ScanState) (file_id : String)
    (findings : List (String × List String)) : ScanState :=
  match st.files.findIdx? (fun r => r.id = file_id) with
  | none => st
  | some i =>
    match st.files.get? i with
    | none => st
    | some file_obj =>
      let found := findings.filter (fun p => ¬ p.2.isEmpty)
      let all_categories := found.map (fun p => p.1)
      let explanations := found.map (fun p => explanationFor p.1 p.2)
      let stats1 :=
        { st.stats with
          by_sensitivity := found.foldl (fun m p => bump m p.1) st.stats.by_sensitivity }
      let st1 :=
        { st with
          files := st.files.set i
            { file_obj with
              sensitiveCategories := all_categories,
              sensitivityExplanation := some (joinSemi explanations),
              confidence := some 0.8 },
          stats := stats1 }
      if st1.sensitive_file_ids.contains file_id then st1
      else
        { st1 with
          stats := { st1.stats with total_sensitive := st1.stats.total_sensitive + 1 },
          sensitive_file_ids := st1.sensitive_file_ids ++ [file_id] }

/-- The body of the per-file loop of the gdrive branch (source lines
527-627).  A metadata-stage exception (`metaOk = false`) reaches the outer
`except` before any `results` mutation: the file's name is appended to
`failed_files` and nothing else changes.  Otherwise the record is appended
and the type/age/department counters bumped; for text-based file types the
content is fetched and scanned, and a content-stage exception is caught by
the inner `except` (source lines 621-622), which only logs. -/
def processFile (now : Int) (st : ScanState) (f : DriveFile) : ScanState :=
  if f.metaOk then
    let ext := extOf f.mimeType f.name
    let age_group := classify_by_age now f.modifiedTime
    let file_type := fileTypeOf ext
    let department := get_department_from_owner f.owners
    let file_dict : FileRecord :=
      { id := f.id, name := f.name, mimeType := f.mimeType,
        modifiedTime := f.modifiedTime,
        createdTime := f.createdTime.getD f.modifiedTime,
        size := f.size, fileType := file_type, ageGroup := age_group,
        sensitiveCategories := [], riskLevel := none, riskLevelLabel := none,
        department := department }
    let st1 :=
      { st with
        files := st.files ++ [file_dict],
        stats :=
          { st.stats with
            by_file_type := bump st.stats.by_file_type file_type,
            by_age_group := bump st.stats.by_age_group age_group,
            by_department := bump st.stats.by_department department } }
    let st2 :=
      if file_type = "documents" ∨ file_type = "spreadsheets" ∨
          file_type = "presentations" ∨ file_type = "pdfs" then
        match f.content with
        | .error _ => st1
        | .ok content =>
          if content = "" then st1
          else
            let findings := scan_text content
            if findings.isEmpty then st1
            else applyFindings st1 f.id findings
      else st1
    { st2 with processed_files := st2.processed_files + 1 }
  else
    { st with failed_files := st.failed_files ++ [f.name] }

/-- The risk-scoring pass over one record (source lines 635-656): files
with a non-empty category set get a score and label (`createdTime` is
always present in the record, `lastAccessedTime` is hard-coded `None`),
and the label's `by_risk_level` counter is bumped. -/
def assignRisk (now : Int) (acc : List FileRecord × (String → Nat))
    (file_obj : FileRecord) : List FileRecord × (String → Nat) :=
  if file_obj.sensitiveCategories.isEmpty then (acc.1 ++ [file_obj], acc.2)
  else
    let file_data : RiskFileData :=
      { createdTime := some file_obj.createdTime, lastAccessedTime := none,
        name := file_obj.name }
    let findings_format := file_obj.sensitiveCategories.map (fun c => (c, [c]))
    let risk_score := calculate_weighted_risk_score now file_data findings_format
    let risk_level_label := get_risk_level_label risk_score
    (acc.1 ++ [{ file_obj with
                  riskLevel := some risk_score,
                  riskLevelLabel := some risk_level_label }],
     bump acc.2 risk_level_label)

/-- Python `max(categories, key=lambda cat: CONTENT_RISK_WEIGHTS.get(cat, 0), default=None)`
(source lines 682-684): the first category of maximal weight, `none` on an
empty list. -/
def primaryOf : List String → Option String
  | [] => none
  | c :: rest =>
    some (rest.foldl
      (fun b c2 =>
        if lookupD CONTENT_RISK_WEIGHTS c2 0 > lookupD CONTENT_RISK_WEIGHTS b 0
        then c2 else b) c)

/-- The `sensitivityReason` pass over one record (source lines 679-685). -/
def setReason (file_obj : FileRecord) : FileRecord :=
  if file_obj.sensitiveCategories.isEmpty then file_obj
  else { file_obj with sensitivityReason := primaryOf file_obj.sensitiveCategories }

/-- The gdrive branch of `scan_files` (source lines 513-692) as a function
of the scan-start time and the listing collaborator's result.  After the
per-file loop: `scan_complete` is set, the risk pass fills in scores and
`by_risk_level`, the overall totals are recomputed from the final `files`
list (source lines 663-668), and the `sensitivityReason` pass runs. -/
def scanFiles (now : Int) (files : List DriveFile) : ScanState :=
  let st0 : ScanState := { total_files := files.length }
  let st1 := files.foldl (processFile now) st0
  let st1 := { st1 with scan_complete := true }
  let riskFold := st1.files.foldl (assignRisk now) ([], st1.stats.by_risk_level)
  let st2 :=
    { st1 with
      files := riskFold.1,
      stats := { st1.stats with by_risk_level := riskFold.2 } }
  let st3 :=
    { st2 with
      stats :=
        { st2.stats with
          total_documents := st2.files.length,
          total_sensitive := st2.sensitive_file_ids.length },
      total_files := st2.files.length,
      processed_files := st2.files.length }
  { st3 with files := st3.files.map setReason }

/-! ## Basic facts about the scoring configuration -/

lemma foldl_weight_sum (l : List (String × List String)) (a : ℚ) :
    l.foldl (fun acc p => acc + lookupD CONTENT_RISK_WEIGHTS p.1 0.05) a
      = a + ((l.map Prod.fst).map (fun k => lookupD CONTENT_RISK_WEIGHTS k 0.05)).sum := by
  induction l generalizing a with
  | nil => simp
  | cons p t ih => simp [List.foldl, ih, add_assoc]

lemma weight_conf : lookupD CONTENT_RISK_WEIGHTS "confidential" 0.05 = 0.4 := rfl

lemma weight_pii : lookupD CONTENT_RISK_WEIGHTS "pii" 0.05 = 0.3 := rfl

lemma weight_fin : lookupD CONTENT_RISK_WEIGHTS "financial" 0.05 = 0.2 := rfl

lemma weight_legal : lookupD CONTENT_RISK_WEIGHTS "legal" 0.05 = 0.1 := rfl

lemma ageF_high : lookupD AGE_RISK_FACTORS "high" 0 = 0.3 := rfl

lemma ageF_med : lookupD AGE_RISK_FACTORS "medium" 0 = 0.2 := rfl

lemma ageF_low : lookupD AGE_RISK_FACTORS "low" 0 = 0.1 := rfl

lemma accF_high : lookupD ACCESS_RISK_FACTORS "high" 0 = 0.3 := rfl

lemma weight_nonneg (k : String) : 0 ≤ lookupD CONTENT_RISK_WEIGHTS k 0.05 := by
  unfold lookupD CONTENT_RISK_WEIGHTS
  simp only [List.lookup]
  cases h1 : (k == "confidential") <;> cases h2 : (k == "pii") <;>
    cases h3 : (k == "financial") <;> cases h4 : (k == "legal") <;>
      simp [h1, h2, h3, h4] <;> norm_num

lemma weight_ge_tenth (k : String) (hk : k ∈ category_order) :
    (1/10 : ℚ) ≤ lookupD CONTENT_RISK_WEIGHTS k 0.05 := by
  simp only [category_order, List.mem_cons, List.not_mem_nil, or_false] at hk
  rcases hk with rfl | rfl | rfl | rfl
  · rw [weight_pii]; norm_num
  · rw [weight_fin]; norm_num
  · rw [weight_legal]; norm_num
  · rw [weight_conf]; norm_num

lemma age_factor_ge_tenth (now : Int) (d : Option Int) :
    (1/10 : ℚ) ≤ get_age_risk_factor now d := by
  cases d with
  | none => rw [show get_age_risk_factor now none = lookupD AGE_RISK_FACTORS "medium" 0 from rfl,
      ageF_med]; norm_num
  | some c =>
    show (1/10 : ℚ) ≤
      (if ((now - c : Int) : ℚ) / 365 ≥ 3 then lookupD AGE_RISK_FACTORS "high" 0
       else if ((now - c : Int) : ℚ) / 365 ≥ 1 then lookupD AGE_RISK_FACTORS "medium" 0
       else lookupD AGE_RISK_FACTORS "low" 0)
    split_ifs
    · rw [ageF_high]; norm_num
    · rw [ageF_med]; norm_num
    · rw [ageF_low]; norm_num

lemma access_factor_none (now : Int) :
    get_access_risk_factor now none = 0.3 := by
  rw [show get_access_risk_factor now none = lookupD ACCESS_RISK_FACTORS "high" 0 from rfl, accF_high]

lemma age_factor_low (now c : Int) (h1 : now - c < 365) :
    get_age_risk_factor now (some c) = 0.1 := by
  have hq : ((now - c : Int) : ℚ) < 365 := by exact_mod_cast h1
  have h3 : ¬(((now - c : Int) : ℚ) / 365 ≥ 3) := by
    rw [ge_iff_le, le_div_iff₀ (by norm_num : (0:ℚ) < 365)]
    linarith
  have h2 : ¬(((now - c : Int) : ℚ) / 365 ≥ 1) := by
    rw [ge_iff_le, le_div_iff₀ (by norm_num : (0:ℚ) < 365)]
    linarith
  show (if ((now - c : Int) : ℚ) / 365 ≥ 3 then lookupD AGE_RISK_FACTORS "high" 0
       else if ((now - c : Int) : ℚ) / 365 ≥ 1 then lookupD AGE_RISK_FACTORS "medium" 0
       else lookupD AGE_RISK_FACTORS "low" 0) = 0.1
  rw [if_neg h3, if_neg h2, ageF_low]

/-! ## Claims about the risk scorer -/

/-- Claim C2: for findings exactly `{confidential}`, a creation date less
than one year old and an unknown last-accessed date, the risk scorer
returns exactly 0.4 + 0.1 + 0.3 = 0.8, and the bucketing maps that score
to the label "high". -/
theorem claim_C2_score_boundary (now c : Int) (_h0 : 0 ≤ now - c) (h1 : now - c < 365) :
    calculate_weighted_risk_score now ⟨some c, none, ""⟩ [("confidential", ["confidential"])] = 0.8 ∧
    get_risk_level_label
      (calculate_weighted_risk_score now ⟨some c, none, ""⟩ [("confidential", ["confidential"])]) = "high" := by
  have hscore :
      calculate_weighted_risk_score now ⟨some c, none, ""⟩ [("confidential", ["confidential"])] = 0.8 := by
    unfold calculate_weighted_risk_score
    rw [foldl_weight_sum]
    rw [age_factor_low now c h1, access_factor_none]
    simp only [List.map_cons, List.map_nil, List.sum_cons, List.sum_nil, weight_conf]
    norm_num
  refine ⟨hscore, ?_⟩
  rw [hscore]
  unfold get_risk_level_label
  rw [if_pos (by norm_num : (0.8 : ℚ) ≥ 0.7)]

/-- Witness for C2 at `now = 100`, `createdTime = 0`. -/
theorem claim_C2_score_boundary_witness :
    (0 ≤ (100 : Int) - 0) ∧ ((100 : Int) - 0 < 365) ∧
    get_risk_level_label
      (calculate_weighted_risk_score 100 ⟨some 0, none, ""⟩ [("confidential", ["confidential"])]) = "high" :=
  ⟨by decide, by decide, (claim_C2_score_boundary 100 0 (by decide) (by decide)).2⟩

/-- Claim C3: the unknown-value defaults are asymmetric: an absent
`createdTime` contributes the medium age weight 0.2, while an absent
`lastAccessedTime` contributes the high access weight 0.3. -/
theorem claim_C3_unknown_defaults (now : Int) :
    get_age_risk_factor now none = 0.2 ∧ get_access_risk_factor now none = 0.3 := by
  constructor
  · rw [show get_age_risk_factor now none = lookupD AGE_RISK_FACTORS "medium" 0 from rfl, ageF_med]
  · exact access_factor_none now

/-- Claim C4: the risk score is always at most 1.0, and with all four
categories present plus the high age factor and the high access factor it
is exactly 1.0 (not 1.6). -/
theorem claim_C4_score_cap :
    (∀ (now : Int) (fd : RiskFileData) (findings : List (String × List String)),
        calculate_weighted_risk_score now fd findings ≤ 1) ∧
    calculate_weighted_risk_score 2000 ⟨some 0, some 0, ""⟩
        [("confidential", ["confidential"]), ("pii", ["pii"]),
         ("financial", ["financial"]), ("legal", ["legal"])] = 1 := by
  constructor
  · intro now fd findings
    unfold calculate_weighted_risk_score
    exact min_le_right _ _
  · have hcond : ((2000 - 0 : Int) : ℚ) / 365 ≥ 3 := by
      rw [ge_iff_le, le_div_iff₀ (by norm_num : (0:ℚ) < 365)]
      norm_num
    have hage : get_age_risk_factor 2000 (some 0) = 0.3 := by
      show (if ((2000 - 0 : Int) : ℚ) / 365 ≥ 3 then lookupD AGE_RISK_FACTORS "high" 0
           else if ((2000 - 0 : Int) : ℚ) / 365 ≥ 1 then lookupD AGE_RISK_FACTORS "medium" 0
           else lookupD AGE_RISK_FACTORS "low" 0) = 0.3
      rw [if_pos hcond, ageF_high]
    have haccess : get_access_risk_factor 2000 (some 0) = 0.3 := by
      show (if ((2000 - 0 : Int) : ℚ) / 365 ≥ 3 then lookupD ACCESS_RISK_FACTORS "high" 0
           else if ((2000 - 0 : Int) : ℚ) / 365 ≥ 1 then lookupD ACCESS_RISK_FACTORS "medium" 0
           else lookupD ACCESS_RISK_FACTORS "low" 0) = 0.3
      rw [if_pos hcond]
      rfl
    unfold calculate_weighted_risk_score
    rw [foldl_weight_sum, hage, haccess]
    simp only [List.map_cons, List.map_nil, List.sum_cons, List.sum_nil,
      weight_conf, weight_pii, weight_fin, weight_legal]
    norm_num

/-- Claim C5: with identical temporal metadata, enlarging the set of
finding categories can only increase the risk score. -/
theorem claim_C5_monotonicity (now : Int) (fd : RiskFileData)
    (A B : List (String × List String))
    (hA : (A.map Prod.fst).Nodup) (hB : (B.map Prod.fst).Nodup)
    (hsub : (A.map Prod.fst) ⊆ (B.map Prod.fst)) :
    calculate_weighted_risk_score now fd A ≤ calculate_weighted_risk_score now fd B := by
  have hbase :
      ((A.map Prod.fst).map (fun k => lookupD CONTENT_RISK_WEIGHTS k 0.05)).sum ≤
        ((B.map Prod.fst).map (fun k => lookupD CONTENT_RISK_WEIGHTS k 0.05)).sum := by
    rw [← List.sum_toFinset _ hA, ← List.sum_toFinset _ hB]
    refine Finset.sum_le_sum_of_subset_of_nonneg ?_ ?_
    · intro k hk
      rw [List.mem_toFinset] at hk ⊢
      exact hsub hk
    · intro k _ _
      exact weight_nonneg k
  unfold calculate_weighted_risk_score
  rw [foldl_weight_sum, foldl_weight_sum]
  exact min_le_min (by linarith) le_rfl

/-- Witness for C5: `A = {legal}`, `B = {legal, confidential}`. -/
theorem claim_C5_monotonicity_witness :
    ((([("legal", ["legal"])] : List (String × List String)).map Prod.fst).Nodup) ∧
    ((([("legal", ["legal"]), ("confidential", ["confidential"])] :
        List (String × List String)).map Prod.fst).Nodup) ∧
    calculate_weighted_risk_score 0 ⟨none, none, ""⟩ [("legal", ["legal"])] ≤
      calculate_weighted_risk_score 0 ⟨none, none, ""⟩
        [("legal", ["legal"]), ("confidential", ["confidential"])] :=
  ⟨by decide, by decide,
    claim_C5_monotonicity 0 ⟨none, none, ""⟩ _ _ (by decide) (by decide) (by decide)⟩

/-! ## Claims about the classifier and the extractor -/

/-- Claim C6: text containing the literal keyword "confidential" as a
standalone whole word yields a `confidential` entry whose evidence list
contains the token "confidential"; the substring occurrence inside
"unconfidential" does not trigger anything. -/
theorem claim_C6_whole_word :
    (∀ text : String,
        wholeWordSearch (lowerStr "confidential") (lowerStr text) = true →
        ∃ ev, ("confidential", ev) ∈ scan_text text ∧ "confidential" ∈ ev) ∧
    scan_text "unconfidential" = [] := by
  constructor
  · intro text h
    have hkw : "confidential" ∈ categoryHits text "confidential" := by
      unfold categoryHits
      refine List.mem_append_left _ ?_
      unfold keywordHits
      refine List.mem_filter.mpr ⟨?_, h⟩
      decide
    refine ⟨categoryHits text "confidential", ?_, hkw⟩
    unfold scan_text
    refine List.mem_filter.mpr ⟨?_, ?_⟩
    · exact List.mem_map.mpr ⟨"confidential", by decide, rfl⟩
    · simpa using List.ne_nil_of_mem hkw
  · decide

/-- Witness for C6 on the text "a confidential memo". -/
theorem claim_C6_whole_word_witness :
    wholeWordSearch (lowerStr "confidential") (lowerStr "a confidential memo") = true ∧
    ∃ ev, ("confidential", ev) ∈ scan_text "a confidential memo" ∧ "confidential" ∈ ev :=
  ⟨by decide, claim_C6_whole_word.1 "a confidential memo" (by decide)⟩

/-- Claim C8 fails on the code: the keyword "gdpr" is listed under both
`pii` and `legal` (and so is "hipaa"). -/
theorem claim_C8_counterexample :
    "gdpr" ∈ sensitive_keywords "pii" ∧ "gdpr" ∈ sensitive_keywords "legal" ∧
    ("pii" : String) ≠ "legal" := by decide

/-- Claim C8 amended: every pattern label is assigned to exactly one
category (the `pattern_categories` keys are distinct), and every keyword
belongs to the keyword list of exactly one category, except "gdpr" and
"hipaa", which appear in both the `pii` and the `legal` lists. -/
theorem claim_C8_amended :
    (pattern_categories.map Prod.fst).Nodup ∧
    (∀ c1 ∈ category_order, ∀ c2 ∈ category_order, c1 ≠ c2 →
        ∀ k ∈ sensitive_keywords c1, k ∈ sensitive_keywords c2 →
          k = "gdpr" ∨ k = "hipaa") := by
  constructor
  · decide
  · decide

/-- Witness for the amended C8 at the pair (`pii`, `legal`) and keyword
"gdpr". -/
theorem claim_C8_amended_witness :
    ("pii" ∈ category_order) ∧ ("legal" ∈ category_order) ∧ (("pii" : String) ≠ "legal") ∧
    ("gdpr" ∈ sensitive_keywords "pii") ∧ ("gdpr" ∈ sensitive_keywords "legal") ∧
    ("gdpr" = "gdpr" ∨ ("gdpr" : String) = "hipaa") :=
  ⟨by decide, by decide, by decide, by decide, by decide,
    claim_C8_amended.2 "pii" (by decide) "legal" (by decide) (by decide) "gdpr"
      (by decide) (by decide)⟩

/-- Claim C9: the text extractor is total by construction (it is a Lean
function) and returns empty text whenever the format tag is not one of the
handled tags or the handler for the tag fails. -/
theorem claim_C9_extractor_total (stream : String → Except Unit String) (file_type : String)
    (h : (¬ (file_type = "docx" ∨ file_type = "pptx" ∨ file_type = "xlsx" ∨
             file_type = "xls" ∨ file_type = "pdf" ∨ file_type = "jpg" ∨
             file_type = "jpeg" ∨ file_type = "png" ∨ file_type = "webp" ∨
             file_type = "txt")) ∨
         stream file_type = .error ()) :
    extract_text_from_file stream file_type = "" := by
  unfold extract_text_from_file
  rcases h with h | h
  · rw [if_neg h]
  · split
    · rw [h]
    · rfl

/-- Witness for C9: a failing handler on a handled tag, and an
unrecognized tag. -/
theorem claim_C9_extractor_total_witness :
    extract_text_from_file (fun _ => Except.error ()) "pdf" = "" ∧
    extract_text_from_file (fun _ => Except.error ()) "xyz123" = "" :=
  ⟨claim_C9_extractor_total _ "pdf" (Or.inr rfl),
   claim_C9_extractor_total _ "xyz123" (Or.inl (by decide))⟩

/-! ## Structural lemmas about the scan loop -/

lemma applyFindings_skeleton (st : ScanState) (fid : String)
    (fnd : List (String × List String)) :
    (applyFindings st fid fnd).failed_files = st.failed_files ∧
    (applyFindings st fid fnd).files.length = st.files.length ∧
    (applyFindings st fid fnd).stats.by_file_type = st.stats.by_file_type ∧
    (applyFindings st fid fnd).stats.by_age_group = st.stats.by_age_group ∧
    (applyFindings st fid fnd).stats.by_department = st.stats.by_department ∧
    (applyFindings st fid fnd).stats.by_risk_level = st.stats.by_risk_level := by
  unfold applyFindings
  split
  · exact ⟨rfl, rfl, rfl, rfl, rfl, rfl⟩
  · split
    · exact ⟨rfl, rfl, rfl, rfl, rfl, rfl⟩
    · dsimp only
      split_ifs <;> simp [List.length_set]

lemma processFile_failed (now : Int) (st : ScanState) (f : DriveFile) :
    (processFile now st f).failed_files =
      st.failed_files ++ (if f.metaOk then [] else [f.name]) := by
  cases hm : f.metaOk with
  | false => simp [processFile, hm]
  | true =>
    simp only [processFile, hm, if_true, ite_true]
    split
    · split
      · simp
      · split
        · simp
        · split
          · simp
          · simp [(applyFindings_skeleton _ _ _).1]
    · simp

lemma processFile_files_length (now : Int) (st : ScanState) (f : DriveFile) :
    (processFile now st f).files.length =
      st.files.length + (if f.metaOk then 1 else 0) := by
  cases hm : f.metaOk with
  | false => simp [processFile, hm]
  | true =>
    simp only [processFile, hm, if_true, ite_true]
    split
    · split
      · simp
      · split
        · simp
        · split
          · simp
          · simp [(applyFindings_skeleton _ _ _).2.1]
    · simp

lemma processFile_by_file_type (now : Int) (st : ScanState) (f : DriveFile) (k : String) :
    (processFile now st f).stats.by_file_type k =
      st.stats.by_file_type k +
        (if f.metaOk ∧ fileTypeOf (extOf f.mimeType f.name) = k then 1 else 0) := by
  cases hm : f.metaOk with
  | false => simp [processFile, hm]
  | true =>
    simp only [processFile, hm, if_true, ite_true, true_and]
    have hb : ∀ m : String → Nat, bump m (fileTypeOf (extOf f.mimeType f.name)) k =
        m k + (if fileTypeOf (extOf f.mimeType f.name) = k then 1 else 0) := by
      intro m
      unfold bump
      split_ifs with h1 h2 h2
      · rw [h1]
      · exact absurd h1.symm h2
      · exact absurd h2.symm h1
      · rfl
    split
    · split
      · simp [hb]
      · split
        · simp [hb]
        · split
          · simp [hb]
          · rw [congrFun (applyFindings_skeleton _ _ _).2.2.1 k]
            simp [hb]
    · simp [hb]

lemma processFile_by_age_group (now : Int) (st : ScanState) (f : DriveFile) (k : String) :
    (processFile now st f).stats.by_age_group k =
      st.stats.by_age_group k +
        (if f.metaOk ∧ classify_by_age now f.modifiedTime = k then 1 else 0) := by
  cases hm : f.metaOk with
  | false => simp [processFile, hm]
  | true =>
    simp only [processFile, hm, if_true, ite_true, true_and]
    have hb : ∀ m : String → Nat, bump m (classify_by_age now f.modifiedTime) k =
        m k + (if classify_by_age now f.modifiedTime = k then 1 else 0) := by
      intro m
      unfold bump
      split_ifs with h1 h2 h2
      · rw [h1]
      · exact absurd h1.symm h2
      · exact absurd h2.symm h1
      · rfl
    split
    · split
      · simp [hb]
      · split
        · simp [hb]
        · split
          · simp [hb]
          · rw [congrFun (applyFindings_skeleton _ _ _).2.2.2.1 k]
            simp [hb]
    · simp [hb]

lemma processFile_by_department (now : Int) (st : ScanState) (f : DriveFile) (k : String) :
    (processFile now st f).stats.by_department k =
      st.stats.by_department k +
        (if f.metaOk ∧ get_department_from_owner f.owners = k then 1 else 0) := by
  cases hm : f.metaOk with
  | false => simp [processFile, hm]
  | true =>
    simp only [processFile, hm, if_true, ite_true, true_and]
    have hb : ∀ m : String → Nat, bump m (get_department_from_owner f.owners) k =
        m k + (if get_department_from_owner f.owners = k then 1 else 0) := by
      intro m
      unfold bump
      split_ifs with h1 h2 h2
      · rw [h1]
      · exact absurd h1.symm h2
      · exact absurd h2.symm h1
      · rfl
    split
    · split
      · simp [hb]
      · split
        · simp [hb]
        · split
          · simp [hb]
          · rw [congrFun (applyFindings_skeleton _ _ _).2.2.2.2.1 k]
            simp [hb]
    · simp [hb]

lemma processFile_by_risk_level (now : Int) (st : ScanState) (f : DriveFile) :
    (processFile now st f).stats.by_risk_level = st.stats.by_risk_level := by
  cases hm : f.metaOk with
  | false => simp [processFile, hm]
  | true =>
    simp only [processFile, hm, if_true, ite_true]
    split
    · split
      · simp
      · split
        · simp
        · split
          · simp
          · rw [(applyFindings_skeleton _ _ _).2.2.2.2.2]
    · simp

lemma foldl_processFile_failed (now : Int) (fs : List DriveFile) :
    ∀ st : ScanState, (fs.foldl (processFile now) st).failed_files =
      st.failed_files ++ (fs.filter (fun f => !f.metaOk)).map DriveFile.name := by
  induction fs with
  | nil => intro st; simp
  | cons f t ih =>
    intro st
    rw [List.foldl_cons, ih, processFile_failed]
    cases hm : f.metaOk <;> simp [hm, List.filter_cons]

lemma foldl_processFile_length (now : Int) (fs : List DriveFile) :
    ∀ st : ScanState, (fs.foldl (processFile now) st).files.length =
      st.files.length + (fs.filter (fun f => f.metaOk)).length := by
  induction fs with
  | nil => intro st; simp
  | cons f t ih =>
    intro st
    rw [List.foldl_cons, ih, processFile_files_length]
    cases hm : f.metaOk <;> simp [hm, List.filter_cons] <;> omega

lemma foldl_processFile_by_file_type (now : Int) (k : String) (fs : List DriveFile) :
    ∀ st : ScanState, (fs.foldl (processFile now) st).stats.by_file_type k =
      st.stats.by_file_type k +
        fs.countP (fun f => f.metaOk ∧ fileTypeOf (extOf f.mimeType f.name) = k) := by
  induction fs with
  | nil => intro st; simp
  | cons f t ih =>
    intro st
    rw [List.foldl_cons, ih, processFile_by_file_type, List.countP_cons]
    by_cases h : (f.metaOk = true ∧ fileTypeOf (extOf f.mimeType f.name) = k) <;>
      simp [h] <;> omega

lemma foldl_processFile_by_age_group (now : Int) (k : String) (fs : List DriveFile) :
    ∀ st : ScanState, (fs.foldl (processFile now) st).stats.by_age_group k =
      st.stats.by_age_group k +
        fs.countP (fun f => f.metaOk ∧ classify_by_age now f.modifiedTime = k) := by
  induction fs with
  | nil => intro st; simp
  | cons f t ih =>
    intro st
    rw [List.foldl_cons, ih, processFile_by_age_group, List.countP_cons]
    by_cases h : (f.metaOk = true ∧ classify_by_age now f.modifiedTime = k) <;>
      simp [h] <;> omega

lemma foldl_processFile_by_department (now : Int) (k : String) (fs : List DriveFile) :
    ∀ st : ScanState, (fs.foldl (processFile now) st).stats.by_department k =
      st.stats.by_department k +
        fs.countP (fun f => f.metaOk ∧ get_department_from_owner f.owners = k) := by
  induction fs with
  | nil => intro st; simp
  | cons f t ih =>
    intro st
    rw [List.foldl_cons, ih, processFile_by_department, List.countP_cons]
    by_cases h : (f.metaOk = true ∧ get_department_from_owner f.owners = k) <;>
      simp [h] <;> omega

lemma foldl_processFile_by_risk_level (now : Int) (fs : List DriveFile) :
    ∀ st : ScanState, (fs.foldl (processFile now) st).stats.by_risk_level =
      st.stats.by_risk_level := by
  induction fs with
  | nil => intro st; rfl
  | cons f t ih =>
    intro st
    rw [List.foldl_cons, ih, processFile_by_risk_level]

/-! ## Invariants carried from the per-file loop into the risk pass -/

/-- State of a file record before the risk pass: no risk fields assigned,
and every detected category is one of the four configured ones. -/
def PreRisk (rec : FileRecord) : Prop :=
  rec.riskLevel = none ∧ rec.riskLevelLabel = none ∧
    ∀ c ∈ rec.sensitiveCategories, c ∈ category_order

lemma scan_text_cats (t : String) (p : String × List String) (hp : p ∈ scan_text t) :
    p.1 ∈ category_order := by
  unfold scan_text at hp
  obtain ⟨hp1, -⟩ := List.mem_filter.mp hp
  obtain ⟨c, hc, rfl⟩ := List.mem_map.mp hp1
  exact hc

lemma applyFindings_PreRisk (st : ScanState) (fid : String)
    (fnd : List (String × List String))
    (hf : ∀ p ∈ fnd, (p : String × List String).1 ∈ category_order)
    (h : ∀ rec ∈ st.files, PreRisk rec) :
    ∀ rec ∈ (applyFindings st fid fnd).files, PreRisk rec := by
  intro rec hrec
  unfold applyFindings at hrec
  split at hrec
  · exact h rec hrec
  · split at hrec
    · exact h rec hrec
    · rename_i x1 i hidx x2 file_obj hget
      have hfo : file_obj ∈ st.files := List.get?_mem hget
      have hmem : rec ∈ st.files.set i
          { file_obj with
            sensitiveCategories := (fnd.filter (fun p => ¬ p.2.isEmpty)).map (fun p => p.1),
            sensitivityExplanation :=
              some (joinSemi ((fnd.filter (fun p => ¬ p.2.isEmpty)).map
                (fun p => explanationFor p.1 p.2))),
            confidence := some 0.8 } := by
        dsimp only at hrec
        split_ifs at hrec <;> simpa using hrec
      rcases List.mem_or_eq_of_mem_set hmem with hmem | rfl
      · exact h rec hmem
      · refine ⟨(h file_obj hfo).1, (h file_obj hfo).2.1, ?_⟩
        intro c hc
        simp only [List.mem_map, List.mem_filter] at hc
        obtain ⟨p, ⟨hp, -⟩, rfl⟩ := hc
        exact hf p hp

lemma processFile_PreRisk (now : Int) (st : ScanState) (f : DriveFile)
    (h : ∀ rec ∈ st.files, PreRisk rec) :
    ∀ rec ∈ (processFile now st f).files, PreRisk rec := by
  cases hm : f.metaOk with
  | false => simpa [processFile, hm] using h
  | true =>
    have happ : ∀ rec ∈ (st.files ++
        [({ id := f.id, name := f.name, mimeType := f.mimeType,
            modifiedTime := f.modifiedTime,
            createdTime := f.createdTime.getD f.modifiedTime,
            size := f.size, fileType := fileTypeOf (extOf f.mimeType f.name),
            ageGroup := classify_by_age now f.modifiedTime,
            sensitiveCategories := [], riskLevel := none, riskLevelLabel := none,
            department := get_department_from_owner f.owners } : FileRecord)]), PreRisk rec := by
      intro rec hrec
      rcases List.mem_append.mp hrec with hrec | hrec
      · exact h rec hrec
      · rcases List.mem_singleton.mp hrec with rfl
        exact ⟨rfl, rfl, by simp⟩
    intro rec hrec
    simp only [processFile, hm, if_true, ite_true] at hrec
    revert hrec
    split
    · split
      · exact fun hrec => happ rec hrec
      · split
        · exact fun hrec => happ rec hrec
        · split
          · exact fun hrec => happ rec hrec
          · intro hrec
            refine applyFindings_PreRisk _ _ _ ?_ happ rec hrec
            intro p hp
            exact scan_text_cats _ p hp
    · exact fun hrec => happ rec hrec

lemma foldl_processFile_PreRisk (now : Int) (fs : List DriveFile) :
    ∀ st : ScanState, (∀ rec ∈ st.files, PreRisk rec) →
      ∀ rec ∈ (fs.foldl (processFile now) st).files, PreRisk rec := by
  induction fs with
  | nil => intro st h; exact h
  | cons f t ih =>
    intro st h
    rw [List.foldl_cons]
    exact ih _ (processFile_PreRisk now st f h)

/-- State of a file record after the risk pass: risk fields assigned
exactly when categories were found, every assigned score at least 0.5, and
no assigned label "low". -/
def PostRisk (rec : FileRecord) : Prop :=
  (rec.riskLevel = none ↔ rec.sensitiveCategories = []) ∧
  (rec.riskLevelLabel = none ↔ rec.sensitiveCategories = []) ∧
  (∀ q, rec.riskLevel = some q → (1/2 : ℚ) ≤ q) ∧
  rec.riskLevelLabel ≠ some "low"

lemma score_ge_half (now c : Int) (nm : String) (cats : List String)
    (hne : cats ≠ []) (hsub : ∀ x ∈ cats, x ∈ category_order) :
    (1/2 : ℚ) ≤ calculate_weighted_risk_score now ⟨some c, none, nm⟩
      (cats.map (fun x => (x, [x]))) := by
  unfold calculate_weighted_risk_score
  rw [foldl_weight_sum]
  have hfst : (cats.map (fun x => (x, [x]))).map Prod.fst = cats := by
    rw [List.map_map, show (Prod.fst ∘ fun x : String => (x, [x])) = id from rfl, List.map_id]
  rw [hfst]
  have hacc := access_factor_none now
  have hage := age_factor_ge_tenth now (some c)
  cases cats with
  | nil => exact absurd rfl hne
  | cons c0 rest =>
    have h1 : (1/10 : ℚ) ≤ lookupD CONTENT_RISK_WEIGHTS c0 0.05 :=
      weight_ge_tenth c0 (hsub c0 (List.mem_cons_self c0 rest))
    have h2 : (0 : ℚ) ≤ ((rest.map (fun k => lookupD CONTENT_RISK_WEIGHTS k 0.05))).sum := by
      refine List.sum_nonneg ?_
      intro x hx
      obtain ⟨k, -, rfl⟩ := List.mem_map.mp hx
      exact weight_nonneg k
    simp only [List.map_cons, List.sum_cons]
    refine le_min ?_ (by norm_num)
    rw [hacc]
    have : (0.3 : ℚ) = 3/10 := by norm_num
    rw [this]
    linarith

lemma label_of_ge (s : ℚ) (h : (2/5 : ℚ) ≤ s) : get_risk_level_label s ≠ "low" := by
  unfold get_risk_level_label
  split_ifs with h1 h2
  · decide
  · decide
  · exfalso
    apply h2
    rw [ge_iff_le, show (0.4 : ℚ) = 2/5 by norm_num]
    exact h

lemma riskFold_post (now : Int) (l : List FileRecord) :
    ∀ (acc : List FileRecord) (m : String → Nat),
      (∀ rec ∈ acc, PostRisk rec) → (∀ rec ∈ l, PreRisk rec) →
      (∀ rec ∈ (l.foldl (assignRisk now) (acc, m)).1, PostRisk rec) ∧
        (l.foldl (assignRisk now) (acc, m)).2 "low" = m "low" := by
  induction l with
  | nil => intro acc m hacc _; exact ⟨hacc, rfl⟩
  | cons r t ih =>
    intro acc m hacc hpre
    have hr : PreRisk r := hpre r (List.mem_cons_self r t)
    rw [List.foldl_cons]
    by_cases hemp : r.sensitiveCategories.isEmpty = true
    · have hcats : r.sensitiveCategories = [] := List.isEmpty_iff.mp hemp
      have hstep : assignRisk now (acc, m) r = (acc ++ [r], m) := by
        simp [assignRisk, hemp]
      rw [hstep]
      refine ih (acc ++ [r]) m ?_ (fun x hx => hpre x (List.mem_cons_of_mem r hx))
      intro rec hrec
      rcases List.mem_append.mp hrec with hrec | hrec
      · exact hacc rec hrec
      · rcases List.mem_singleton.mp hrec with rfl
        refine ⟨⟨fun _ => hcats, fun _ => hr.1⟩, ⟨fun _ => hcats, fun _ => hr.2.1⟩, ?_, ?_⟩
        · intro q hq
          rw [hr.1] at hq
          exact absurd hq (by simp)
        · rw [hr.2.1]
          simp
    · have hcats : r.sensitiveCategories ≠ [] := by
        intro hnil
        exact hemp (by simp [hnil])
      set sc := calculate_weighted_risk_score now ⟨some r.createdTime, none, r.name⟩
        (r.sensitiveCategories.map (fun x => (x, [x]))) with hscdef
      set lb := get_risk_level_label sc with hlbdef
      have hsc : (1/2 : ℚ) ≤ sc := by
        rw [hscdef]
        exact score_ge_half now r.createdTime r.name r.sensitiveCategories hcats hr.2.2
      have hlab : lb ≠ "low" := by
        rw [hlbdef, hscdef]
        exact label_of_ge _ (le_trans (by norm_num) hsc)
      have hstep : assignRisk now (acc, m) r =
          (acc ++ [{ r with riskLevel := some sc, riskLevelLabel := some lb }], bump m lb) := by
        simp [assignRisk, hemp, ← hscdef, ← hlbdef]
      rw [hstep]
      have hpost1 : ∀ rec ∈ acc ++ [{ r with riskLevel := some sc, riskLevelLabel := some lb }],
          PostRisk rec := by
        intro rec hrec
        rcases List.mem_append.mp hrec with hrec | hrec
        · exact hacc rec hrec
        · rcases List.mem_singleton.mp hrec with rfl
          refine ⟨⟨fun hh => absurd hh (by simp), fun hh => absurd hh hcats⟩,
            ⟨fun hh => absurd hh (by simp), fun hh => absurd hh hcats⟩, ?_, ?_⟩
          · intro q hq
            have hq2 : q = sc := by simpa using hq.symm
            rw [hq2]
            exact hsc
          · intro hh
            exact hlab (by simpa using hh)
      obtain ⟨ha, hb⟩ := ih _ (bump m lb) hpost1 (fun x hx => hpre x (List.mem_cons_of_mem r hx))
      refine ⟨ha, ?_⟩
      rw [hb]
      unfold bump
      rw [if_neg (fun hl => hlab hl.symm)]

lemma riskFold_length (now : Int) (l : List FileRecord) :
    ∀ (acc : List FileRecord) (m : String → Nat),
      (l.foldl (assignRisk now) (acc, m)).1.length = acc.length + l.length := by
  induction l with
  | nil => intro acc m; simp
  | cons r t ih =>
    intro acc m
    rw [List.foldl_cons]
    by_cases hemp : r.sensitiveCategories.isEmpty = true <;>
      simp [assignRisk, hemp, ih] <;> omega

lemma setReason_fields (rec : FileRecord) :
    (setReason rec).riskLevel = rec.riskLevel ∧
    (setReason rec).riskLevelLabel = rec.riskLevelLabel ∧
    (setReason rec).sensitiveCategories = rec.sensitiveCategories := by
  unfold setReason
  split_ifs <;> exact ⟨rfl, rfl, rfl⟩

/-! ## Claims about the batch scan -/

/-- A file whose metadata is fine but whose content fetch raises
(`get_file_content` throws, caught by the inner handler at source lines
621-622). -/
def fetchErrorFile : DriveFile :=
  { id := "f1", name := "report.docx",
    mimeType := "application/vnd.openxmlformats-officedocument.wordprocessingml.document",
    modifiedTime := 0, content := .error () }

/-- Claim C1 fails on the code: a file whose content fetch raises is NOT
added to `failed_files` (the inner `except` only logs) and stays included
in `total_documents`, `by_file_type`, `by_age_group` and `by_department`. -/
theorem claim_C1_counterexample :
    (scanFiles 0 [fetchErrorFile]).failed_files = [] ∧
    (scanFiles 0 [fetchErrorFile]).stats.total_documents = 1 ∧
    (scanFiles 0 [fetchErrorFile]).stats.by_file_type "documents" = 1 ∧
    (scanFiles 0 [fetchErrorFile]).stats.by_age_group "lessThanOneYear" = 1 ∧
    (scanFiles 0 [fetchErrorFile]).stats.by_department "Others" = 1 := by
  refine ⟨?_, ?_, ?_, ?_, ?_⟩ <;> decide

/-- Claim C1 amended: the scan always continues with the next file, but
`failed_files` collects exactly the files whose metadata stage raises (and
those are the only files excluded from the aggregate counts); a file whose
content fetch or content processing raises is NOT added to `failed_files`
and remains counted in `total_documents`, `by_file_type`, `by_age_group`
and `by_department` (it merely contributes no sensitivity findings). -/
theorem claim_C1_amended (now : Int) (files : List DriveFile) :
    (scanFiles now files).failed_files
        = (files.filter (fun f => !f.metaOk)).map DriveFile.name ∧
    (scanFiles now files).stats.total_documents
        = (files.filter (fun f => f.metaOk)).length ∧
    (∀ k, (scanFiles now files).stats.by_file_type k
        = files.countP (fun f => f.metaOk ∧ fileTypeOf (extOf f.mimeType f.name) = k)) ∧
    (∀ k, (scanFiles now files).stats.by_age_group k
        = files.countP (fun f => f.metaOk ∧ classify_by_age now f.modifiedTime = k)) ∧
    (∀ k, (scanFiles now files).stats.by_department k
        = files.countP (fun f => f.metaOk ∧ get_department_from_owner f.owners = k)) := by
  unfold scanFiles
  dsimp only
  refine ⟨?_, ?_, ?_, ?_, ?_⟩
  · rw [foldl_processFile_failed]
    simp
  · rw [riskFold_length, foldl_processFile_length]
    simp
  · intro k
    rw [foldl_processFile_by_file_type]
    simp
  · intro k
    rw [foldl_processFile_by_age_group]
    simp
  · intro k
    rw [foldl_processFile_by_department]
    simp

/-- Claim C7: in every produced report, a file record carries a risk score
and a risk label exactly when its detected category set is non-empty;
clean files keep both fields absent (`none`), not zero. -/
theorem claim_C7_risk_iff (now : Int) (files : List DriveFile) :
    ∀ rec ∈ (scanFiles now files).files,
      (rec.riskLevel ≠ none ↔ rec.sensitiveCategories ≠ []) ∧
      (rec.riskLevelLabel ≠ none ↔ rec.sensitiveCategories ≠ []) := by
  intro rec hrec
  unfold scanFiles at hrec
  dsimp only at hrec
  obtain ⟨r0, hr0, rfl⟩ := List.mem_map.mp hrec
  have hpre := foldl_processFile_PreRisk now files { total_files := files.length } (by simp)
  have hpost := (riskFold_post now _ [] _ (by simp) hpre).1 r0 hr0
  constructor
  · rw [(setReason_fields r0).1, (setReason_fields r0).2.2]
    exact not_iff_not.mpr hpost.1
  · rw [(setReason_fields r0).2.1, (setReason_fields r0).2.2]
    exact not_iff_not.mpr hpost.2.1

/-- A metadata-clean file whose fetched content is empty. -/
def cleanFile : DriveFile :=
  { id := "c1", name := "notes.txt", mimeType := "text/plain", modifiedTime := 0,
    content := .ok "" }

/-- The record the scan produces for `cleanFile`. -/
def cleanRecord : FileRecord :=
  { id := "c1", name := "notes.txt", mimeType := "text/plain", modifiedTime := 0,
    createdTime := 0, size := 0, fileType := "documents",
    ageGroup := "lessThanOneYear", department := "Others" }

/-- Witness for C7 on a one-file scan. -/
theorem claim_C7_risk_iff_witness :
    cleanRecord ∈ (scanFiles 0 [cleanFile]).files ∧
    (cleanRecord.riskLevel ≠ none ↔ cleanRecord.sensitiveCategories ≠ []) :=
  ⟨by decide, (claim_C7_risk_iff 0 [cleanFile] cleanRecord (by decide)).1⟩

/-- Claim C10: `lastAccessedTime` is hard-coded unknown in the gdrive scan,
so every scored file gets the worst-case access factor; every assigned
risk score is at least 0.5, no scored file is labeled "low", and
`stats.by_risk_level "low"` is 0 in every returned report. -/
theorem claim_C10_no_low (now : Int) (files : List DriveFile) :
    (scanFiles now files).stats.by_risk_level "low" = 0 ∧
    ∀ rec ∈ (scanFiles now files).files,
      rec.riskLevelLabel ≠ some "low" ∧
      ∀ q, rec.riskLevel = some q → (1/2 : ℚ) ≤ q := by
  have hpre := foldl_processFile_PreRisk now files { total_files := files.length } (by simp)
  constructor
  · unfold scanFiles
    dsimp only
    rw [(riskFold_post now _ [] _ (by simp) hpre).2]
    rw [congrFun (foldl_processFile_by_risk_level now files _) "low"]
  · intro rec hrec
    unfold scanFiles at hrec
    dsimp only at hrec
    obtain ⟨r0, hr0, rfl⟩ := List.mem_map.mp hrec
    have hpost := (riskFold_post now _ [] _ (by simp) hpre).1 r0 hr0
    constructor
    · rw [(setReason_fields r0).2.1]
      exact hpost.2.2.2
    · intro q hq
      rw [(setReason_fields r0).1] at hq
      exact hpost.2.2.1 q hq

/-- Witness for C10 on a one-file scan. -/
theorem claim_C10_no_low_witness :
    (scanFiles 0 [cleanFile]).stats.by_risk_level "low" = 0 ∧
    cleanRecord ∈ (scanFiles 0 [cleanFile]).files ∧
    cleanRecord.riskLevelLabel ≠ some "low" :=
  ⟨(claim_C10_no_low 0 [cleanFile]).1, by decide,
    ((claim_C10_no_low 0 [cleanFile]).2 cleanRecord (by decide)).1⟩

end FileScanner
